import Mathlib

/-!
Shallow embedding of the retrieval-and-reconciliation core of the
`Wurfel2021/stakeholder-analysis` repository (files `speechGather.py`,
`test.py`, `clean.py`): the truncation heuristic, the full-text fallback
fetcher, the per-record reconciliation loop of `export_speeches_to_csv`,
the Hansard listing client `get_hansard`, the date-range filter
`get_hansard_by_date_range`, and the text normalizer `sanitize_text`.

Strings are modelled as Lean `String` (sequences of Unicode code points,
matching Python `str` length/indexing semantics); network and HTML-parsing
effects are modelled as explicit inputs to the embedded functions.
-/

set_option maxRecDepth 20000

namespace OpenAustralia

/-- Python whitespace characters recognised by `str.split()` / `str.strip()`
(the ASCII subset: space, tab, newline, carriage return, vertical tab,
form feed). -/
def isPyWs (c : Char) : Bool :=
  c = ' ' || c = '\t' || c = '\n' || c = '\r' || c = Char.ofNat 11 || c = Char.ofNat 12

/-- Python `s.strip()`: remove leading and trailing whitespace. -/
def pyStrip (s : String) : String :=
  String.mk (((s.data.dropWhile isPyWs).reverse.dropWhile isPyWs).reverse)

/-- Python `s.split()` (no separator argument): split on maximal runs of
whitespace, discarding empty pieces. `cur` accumulates the characters of the
current word in reverse. -/
def splitWsAux : List Char → List Char → List (List Char)
  | [], cur => if cur.isEmpty then [] else [cur.reverse]
  | c :: rest, cur =>
    if isPyWs c then
      if cur.isEmpty then splitWsAux rest []
      else cur.reverse :: splitWsAux rest []
    else splitWsAux rest (c :: cur)

/-- Python `s.split()` lifted to `String`. -/
def pySplit (s : String) : List String :=
  (splitWsAux s.data []).map String.mk

/-- Python `' '.join(ts)`. -/
def joinWithSpace : List String → String
  | [] => ""
  | [t] => t
  | t :: rest => t ++ " " ++ joinWithSpace rest

/-- Python `' '.join(s.split())`: collapse every whitespace run to a single
space (the final normalisation step of `fetch_full_speech`). -/
def collapseWs (s : String) : String :=
  joinWithSpace (pySplit s)

/-- The literal sentinel string returned by `fetch_full_speech` on any error
and recorded for truncated records that have no detail URL. -/
def unableSentinel : String := "Unable to retrieve full speech."

/-- Whether `pat` is an initial segment of `l` (character lists). -/
def beginsWith : List Char → List Char → Bool
  | [], _ => true
  | _ :: _, [] => false
  | p :: ps, c :: cs => p = c && beginsWith ps cs

/-- Whether `pat` occurs contiguously anywhere inside `l`. -/
def containsSeq (pat : List Char) (l : List Char) : Bool :=
  match l with
  | [] => pat.isEmpty
  | _ :: rest => beginsWith pat l || containsSeq pat rest

/-- Python `body.endswith(suffix)`: the reversed suffix is an initial segment
of the reversed body. -/
def pyEndsWith (body suffix : String) : Bool :=
  beginsWith suffix.data.reverse body.data.reverse

/-- Python `'&#' in body`: substring containment of the unresolved numeric
character-reference marker. -/
def hasAmpHash (body : String) : Bool :=
  containsSeq "&#".data body.data

/-- The truncation heuristic of `export_speeches_to_csv`
(`speechGather.py` line 488, identically `test.py` line 496):
`body.endswith('...') or '&#' in body or len(body) < 200`.
Note the length test is on the raw body; the source never trims. -/
def isTruncated (body : String) : Bool :=
  pyEndsWith body "..." || hasAmpHash body || decide (body.length < 200)

/- ### Truncation heuristic: length threshold (C3) and marker rules (C4) -/

/-- C3 (counterexample). The claim states that a body whose trimmed length is
below 200 is classified truncated regardless of its untrimmed length. The
body made of 200 spaces followed by `a` has trimmed length 1 < 200, yet the
source compares the untrimmed length (201 ≥ 200) and, with no ellipsis or
entity marker present, classifies it as not truncated. -/
theorem trimmed_length_cex :
    isTruncated (String.mk (List.replicate 200 ' ' ++ ['a'])) = false ∧
    (pyStrip (String.mk (List.replicate 200 ' ' ++ ['a']))).length < 200 := by
  constructor
  · decide
  · decide

/-- C3 (amended). The truncation heuristic compares the raw, untrimmed
length: every body whose untrimmed length is below 200 characters is
classified truncated. -/
theorem short_untrimmed_body_truncated (body : String) (h : body.length < 200) :
    isTruncated body = true := by
  simp [isTruncated, h]

/-- C3 (witness). The amended rule applied to the concrete body `"hi"`. -/
theorem short_untrimmed_body_truncated_witness :
    isTruncated "hi" = true :=
  short_untrimmed_body_truncated "hi" (by decide)

/-- C4. The heuristic returns true for every body ending in `"..."` and for
every body containing `"&#"`, regardless of length; and it returns false for
every body of length at least 200 that neither ends in `"..."` nor contains
`"&#"`. -/
theorem marker_and_long_body_rule (body : String) :
    (pyEndsWith body "..." = true → isTruncated body = true) ∧
    (hasAmpHash body = true → isTruncated body = true) ∧
    (200 ≤ body.length → pyEndsWith body "..." = false → hasAmpHash body = false →
      isTruncated body = false) := by
  refine ⟨fun h => ?_, fun h => ?_, fun hlen h1 h2 => ?_⟩
  · simp [isTruncated, h]
  · simp [isTruncated, h]
  · simp [isTruncated, h1, h2, Nat.not_lt.mpr hlen]

/-- C4 (witness). The three cases of `marker_and_long_body_rule` applied to
concrete bodies: a short body ending in an ellipsis, a short body carrying an
entity marker, and a 200-character body with neither marker. -/
theorem marker_and_long_body_rule_witness :
    isTruncated "abc..." = true ∧
    isTruncated "a&#39;b" = true ∧
    isTruncated (String.mk (List.replicate 200 'a')) = false :=
  ⟨(marker_and_long_body_rule "abc...").1 (by decide),
   (marker_and_long_body_rule "a&#39;b").2.1 (by decide),
   (marker_and_long_body_rule (String.mk (List.replicate 200 'a'))).2.2
     (by decide) (by decide) (by decide)⟩

/- ### Record model and the reconciliation loop of `export_speeches_to_csv` -/

/-- Model of `html.unescape` restricted to the entity forms that occur in
OpenAustralia listing URLs (escaped ampersands); all other text passes
through unchanged. -/
def htmlUnescape (s : String) : String :=
  (s.replace "&amp;" "&").replace "&#38;" "&"

/-- Model of `urljoin("https://www.openaustralia.org.au", u)` for the URL
shapes this code feeds it (the base URL has an empty path, so a
root-relative reference is appended to the origin and any other relative
reference is attached below the root). -/
def urljoinOA (u : String) : String :=
  if u.startsWith "/" then "https://www.openaustralia.org.au" ++ u
  else "https://www.openaustralia.org.au/" ++ u

/-- One Hansard listing row as `export_speeches_to_csv` reads it: the result
of `entry.get('gid')`, `entry.get('hdate')`,
`entry.get('speaker', {}).get('full_name', ...)`, `entry.get('body', ...)`
and `entry.get('listurl')`, with `none` for an absent key. -/
structure Entry where
  gid : Option String
  hdate : Option String
  speakerFullName : Option String
  body : Option String
  listurl : Option String
deriving DecidableEq

/-- One output row appended to the `speeches` list (columns Hansard ID,
Date, Speaker, URL, Speech). -/
structure SpeechRow where
  hansardId : Option String
  date : Option String
  speaker : String
  url : String
  speech : String
deriving DecidableEq

/-- Python truthiness of `entry.get('listurl')`: false for an absent key and
for the empty string. -/
def listurlTruthy (o : Option String) : Bool :=
  match o with
  | none => false
  | some s => !s.isEmpty

/-- The body of the `for entry in hansard_entries` loop of
`export_speeches_to_csv` (`speechGather.py` lines 462–501), with the
fallback fetcher passed in as the function `fetch` (its totality is the
subject of C5). It builds the row's URL, initialises `full_speech` with the
API body, replaces it by the fallback fetch result (or the sentinel) when
the truncation heuristic fires, and returns the appended row. -/
def export_entry (fetch : String → String) (e : Entry) : SpeechRow :=
  let body := e.body.getD "No content"
  let full_url :=
    match e.listurl with
    | some lu =>
      if lu.isEmpty then "No URL available"
      else
        let unescaped := htmlUnescape lu
        if unescaped.startsWith "http" then unescaped else urljoinOA unescaped
    | none => "No URL available"
  let full_speech :=
    if isTruncated body then
      match e.listurl with
      | some lu => if lu.isEmpty then unableSentinel else fetch lu
      | none => unableSentinel
    else body
  ⟨e.gid, e.hdate, e.speakerFullName.getD "Unknown", full_url, full_speech⟩

/-- The record-construction portion of `export_speeches_to_csv`: the loop
starts from the empty `speeches` list and appends one row per listing entry,
in input order. (Serialisation of the resulting rows to a file is outside
the embedded core.) -/
def export_speeches_to_csv (fetch : String → String) (hansard_entries : List Entry) : List SpeechRow :=
  hansard_entries.foldl (fun speeches e => speeches ++ [export_entry fetch e]) []

theorem export_foldl_eq_map (fetch : String → String) :
    ∀ (es : List Entry) (acc : List SpeechRow),
      es.foldl (fun speeches e => speeches ++ [export_entry fetch e]) acc =
        acc ++ es.map (export_entry fetch) := by
  intro es
  induction es with
  | nil => intro acc; simp
  | cons e rest ih => intro acc; simp [List.foldl, ih]

/-- C1. The case rule choosing `full_speech` for one record: when the body is
classified truncated and a (truthy) detail URL exists, the row's speech is
exactly the fallback fetcher's result on that URL; when the body is not
classified truncated, the row's speech is the raw body unchanged and is the
same for every fallback fetcher (no fetch is consulted), even when a detail
URL is present; when the body is classified truncated and no (truthy) detail
URL exists, the row's speech is the literal sentinel. -/
theorem full_speech_case_rule (fetch : String → String) (e : Entry) :
    (∀ u, isTruncated (e.body.getD "No content") = true → e.listurl = some u →
        u.isEmpty = false → (export_entry fetch e).speech = fetch u) ∧
    (isTruncated (e.body.getD "No content") = false →
        (export_entry fetch e).speech = e.body.getD "No content" ∧
        ∀ fetch2 : String → String,
          (export_entry fetch2 e).speech = (export_entry fetch e).speech) ∧
    (isTruncated (e.body.getD "No content") = true →
        listurlTruthy e.listurl = false →
        (export_entry fetch e).speech = unableSentinel) := by
  refine ⟨fun u htr hu hne => ?_, fun hnt => ⟨?_, fun fetch2 => ?_⟩, fun htr hfalsy => ?_⟩
  · simp [export_entry, htr, hu, hne]
  · simp [export_entry, hnt]
  · simp [export_entry, hnt]
  · match hurl : e.listurl with
    | none => simp [export_entry, htr, hurl]
    | some lu =>
      have hemp : lu.isEmpty = true := by
        simpa [listurlTruthy, hurl] using hfalsy
      simp [export_entry, htr, hurl, hemp]

/-- C1 (witness). The three cases of `full_speech_case_rule` at concrete
records: a truncated body with a detail URL takes the fetched text, a long
clean body is passed through raw, and a truncated body without a URL takes
the sentinel. -/
theorem full_speech_case_rule_witness :
    (export_entry (fun _ => "FULL TEXT")
        ⟨some "g1", some "2024-01-02", some "A Speaker", some "Thank you Mr Speaker...",
          some "/debates/?id=1#g2"⟩).speech = "FULL TEXT" ∧
    (export_entry (fun _ => "FULL TEXT")
        ⟨some "g2", some "2024-01-02", none, some (String.mk (List.replicate 200 'a')),
          some "/debates/?id=2"⟩).speech = String.mk (List.replicate 200 'a') ∧
    (export_entry (fun _ => "FULL TEXT")
        ⟨some "g3", some "2024-01-02", none, some "short body", none⟩).speech =
      unableSentinel :=
  ⟨(full_speech_case_rule (fun _ => "FULL TEXT")
      ⟨some "g1", some "2024-01-02", some "A Speaker", some "Thank you Mr Speaker...",
        some "/debates/?id=1#g2"⟩).1 "/debates/?id=1#g2" (by decide) rfl (by decide),
   ((full_speech_case_rule (fun _ => "FULL TEXT")
      ⟨some "g2", some "2024-01-02", none, some (String.mk (List.replicate 200 'a')),
        some "/debates/?id=2"⟩).2.1 (by decide)).1,
   (full_speech_case_rule (fun _ => "FULL TEXT")
      ⟨some "g3", some "2024-01-02", none, some "short body", none⟩).2.2
     (by decide) (by decide)⟩

/-- C2. The loop emits exactly one output row per input record: the output
has the input's length, and the row at every position is the image of the
input record at the same position — no record is merged, dropped or
reordered, whatever the fallback fetcher returns (in particular when it
degrades to the sentinel). -/
theorem pipeline_one_row_per_record (fetch : String → String) (entries : List Entry) :
    (export_speeches_to_csv fetch entries).length = entries.length ∧
    export_speeches_to_csv fetch entries = entries.map (export_entry fetch) := by
  have h := export_foldl_eq_map fetch entries []
  constructor
  · simp [export_speeches_to_csv, h]
  · simpa [export_speeches_to_csv] using h

/- ### The full-text fallback fetcher `fetch_full_speech` -/

/-- One fetched and parsed detail page, as the fetcher's extraction stage
sees it: the text of the first `div` matched by the ordered selector chain
(`class=speech`, `class=speech_text`, `id=speech`, `class=debate-body`, and
in `test.py` additionally `class=speech-content`, `class=full-speech`) if
any selector matched, and the text of the whole document otherwise. The
`get_text(separator)` joining is folded into the two text fields. -/
structure Page where
  speechDivText : Option String
  docText : String

/-- Outcome of the URL-resolution, network and HTML-parsing stages of
`fetch_full_speech`: `failure` covers every raised error — unreachable URL,
network failure, the non-2xx statuses rejected by `raise_for_status`, and
parse failures — all of which land in the function's `except` clause. -/
inductive FetchOutcome where
  | failure
  | success (page : Page)

/-- The extraction-and-cleanup tail of `fetch_full_speech`
(`speechGather.py` lines 417–440): take the matched speech `div`'s text
(stripped), else all document text (stripped), then collapse whitespace runs
with `' '.join(full_speech.split())`; any raised error yields the literal
sentinel. No length cap is applied on any path. -/
def fetch_full_speech (outcome : FetchOutcome) : String :=
  match outcome with
  | FetchOutcome.failure => unableSentinel
  | FetchOutcome.success page =>
    let full_speech :=
      match page.speechDivText with
      | some t => pyStrip t
      | none => pyStrip page.docText
    collapseWs full_speech

/-- The `test.py` variant of `fetch_full_speech` (lines 390–449): the
matched container's stripped text is returned as-is, while the no-container
branch returns `all_text[:100000] + '...'` — the first 100000 characters of
the stripped document text with a three-character ellipsis appended. -/
def fetch_full_speech_testpy (outcome : FetchOutcome) : String :=
  match outcome with
  | FetchOutcome.failure => unableSentinel
  | FetchOutcome.success page =>
    match page.speechDivText with
    | some t => pyStrip t
    | none => String.mk ((pyStrip page.docText).data.take 100000) ++ "..."

/-- C5. The fallback fetcher absorbs every error into the literal sentinel
string: the failure outcome yields exactly `"Unable to retrieve full
speech."`, and — the fetcher being a total function — the reconciliation
loop driven by it still emits one row per record whatever the per-record
network outcomes are, so no fallback failure aborts the remaining records. -/
theorem fallback_failure_yields_sentinel :
    fetch_full_speech FetchOutcome.failure = unableSentinel ∧
    ∀ (net : String → FetchOutcome) (entries : List Entry),
      (export_speeches_to_csv (fun u => fetch_full_speech (net u)) entries).length =
        entries.length := by
  refine ⟨rfl, fun net entries => ?_⟩
  simpa [export_speeches_to_csv] using
    congrArg List.length (export_foldl_eq_map (fun u => fetch_full_speech (net u)) entries [])

theorem dropWhile_replicate_a (n : Nat) :
    (List.replicate n 'a').dropWhile isPyWs = List.replicate n 'a' := by
  cases n with
  | zero => rfl
  | succ m =>
    have hws : isPyWs 'a' = false := by decide
    simp [List.replicate_succ, List.dropWhile_cons, hws]

theorem pyStrip_replicate_a (n : Nat) :
    pyStrip (String.mk (List.replicate n 'a')) = String.mk (List.replicate n 'a') := by
  unfold pyStrip
  rw [show (String.mk (List.replicate n 'a')).data = List.replicate n 'a' from rfl]
  rw [dropWhile_replicate_a, List.reverse_replicate, dropWhile_replicate_a,
    List.reverse_replicate]

theorem splitWsAux_replicate_a :
    ∀ (n : Nat) (cur : List Char), cur.isEmpty = false ∨ 0 < n →
      splitWsAux (List.replicate n 'a') cur = [cur.reverse ++ List.replicate n 'a'] := by
  intro n
  induction n with
  | zero =>
    intro cur h
    have hc : cur.isEmpty = false := by
      rcases h with h | h
      · exact h
      · omega
    simp [splitWsAux, hc]
  | succ m ih =>
    intro cur _
    have hws : isPyWs 'a' = false := by decide
    rw [List.replicate_succ]
    show splitWsAux ('a' :: List.replicate m 'a') cur = _
    rw [splitWsAux, hws]
    simp only [Bool.false_eq_true, if_false]
    rw [ih ('a' :: cur) (Or.inl (by simp))]
    simp [List.append_assoc]

theorem collapseWs_replicate_a (n : Nat) (h : 0 < n) :
    collapseWs (String.mk (List.replicate n 'a')) = String.mk (List.replicate n 'a') := by
  unfold collapseWs pySplit
  rw [show (String.mk (List.replicate n 'a')).data = List.replicate n 'a' from rfl]
  rw [splitWsAux_replicate_a n [] (Or.inr h)]
  simp [joinWithSpace]

/-- C8 (counterexample). The claim states that the no-container branch of the
fallback fetcher is always bounded by a fixed cap on the order of 100000
characters. The `speechGather.py` fetcher applies no cap on that branch: on
a page with no matching container whose document text is one million
`a` characters, the returned string has length 1000000, exceeding even the
100003-character bound that the capped `test.py` variant obeys. -/
theorem nocontainer_uncapped_cex :
    100003 <
      (fetch_full_speech
        (FetchOutcome.success ⟨none, String.mk (List.replicate 1000000 'a')⟩)).length := by
  have h1 : fetch_full_speech
      (FetchOutcome.success ⟨none, String.mk (List.replicate 1000000 'a')⟩) =
      String.mk (List.replicate 1000000 'a') := by
    show collapseWs (pyStrip (String.mk (List.replicate 1000000 'a'))) = _
    rw [pyStrip_replicate_a, collapseWs_replicate_a 1000000 (by omega)]
  rw [h1]
  show 100003 < (List.replicate 1000000 'a').length
  rw [List.length_replicate]
  omega

/-- C8 (amended). Only the `test.py` variant caps the no-container branch:
there, a page with no matching container yields the first 100000 characters
of the stripped document text followed by a three-character ellipsis, so its
result never exceeds 100003 characters; the `speechGather.py` variant
applies no cap on the corresponding branch (see the counterexample). -/
theorem testpy_nocontainer_capped (page : Page) (h : page.speechDivText = none) :
    (fetch_full_speech_testpy (FetchOutcome.success page)).length ≤ 100003 := by
  have h2 : fetch_full_speech_testpy (FetchOutcome.success page) =
      String.mk ((pyStrip page.docText).data.take 100000) ++ "..." := by
    simp [fetch_full_speech_testpy, h]
  rw [h2, String.length_append]
  have h3 : (String.mk ((pyStrip page.docText).data.take 100000)).length ≤ 100000 := by
    show ((pyStrip page.docText).data.take 100000).length ≤ 100000
    exact List.length_take_le 100000 (pyStrip page.docText).data
  have h4 : ("..." : String).length = 3 := by decide
  omega

/-- C8 (witness). The cap bound of `testpy_nocontainer_capped` applied to a
concrete container-less page. -/
theorem testpy_nocontainer_capped_witness :
    (fetch_full_speech_testpy (FetchOutcome.success ⟨none, "whole document text"⟩)).length ≤
      100003 :=
  testpy_nocontainer_capped ⟨none, "whole document text"⟩ rfl

/- ### The text normalizer `sanitize_text` -/

/-- Character-level NFKD compatibility decomposition (model of the Unicode
data that `unicodedata.normalize('NFKD', ·)` consults). Every ASCII code
point (below 128) has no decomposition and maps to itself — the property of
the Unicode tables that the claims rely on; a sample of non-ASCII points
shows decompositions (e with acute accent to e plus combining acute, the fi
ligature to f i, no-break space to space, superscript two to the digit 2);
every other character maps to itself. -/
def nfkdChar (c : Char) : List Char :=
  if c.toNat < 128 then [c]
  else if c = Char.ofNat 0xE9 then [Char.ofNat 0x65, Char.ofNat 0x301]
  else if c = Char.ofNat 0xFB01 then ['f', 'i']
  else if c = Char.ofNat 0xA0 then [' ']
  else if c = Char.ofNat 0xB2 then ['2']
  else [c]

/-- Model of `unicodedata.normalize('NFKD', s)`: decompose character-wise.
(Canonical reordering of combining marks is not modelled; the theorems below
only depend on NFKD fixing ASCII characters.) -/
def nfkd (s : String) : String :=
  String.mk (s.data.flatMap nfkdChar)

/-- Python `.encode('ascii', 'ignore').decode('ascii')`: drop every
character whose code point is 128 or above, keep the rest unchanged. -/
def asciiIgnore (s : String) : String :=
  String.mk (s.data.filter (fun c => c.toNat < 128))

/-- `sanitize_text` of `speechGather.py` line 520 (identically `clean.py`
line 9, whose extra `str(text)` is the identity on strings):
`unicodedata.normalize('NFKD', text).encode('ascii', 'ignore').decode('ascii')`. -/
def sanitize_text (text : String) : String :=
  asciiIgnore (nfkd text)

theorem nfkdChar_ascii (c : Char) (h : c.toNat < 128) : nfkdChar c = [c] := by
  simp [nfkdChar, h]

theorem bind_nfkdChar_of_ascii :
    ∀ (l : List Char), (∀ c ∈ l, c.toNat < 128) → l.flatMap nfkdChar = l := by
  intro l
  induction l with
  | nil => intro _; rfl
  | cons c rest ih =>
    intro h
    have hc : c.toNat < 128 := h c (by simp)
    have hrest : ∀ x ∈ rest, x.toNat < 128 := fun x hx => h x (by simp [hx])
    simp [List.flatMap_cons, nfkdChar_ascii c hc]
    exact ih hrest

theorem filter_ascii_of_ascii (l : List Char) (h : ∀ c ∈ l, c.toNat < 128) :
    l.filter (fun c => c.toNat < 128) = l := by
  rw [List.filter_eq_self]
  intro a ha
  exact decide_eq_true (h a ha)

theorem mem_sanitize_ascii (x : String) :
    ∀ c ∈ (sanitize_text x).data, c.toNat < 128 := by
  intro c hc
  have h2 : c ∈ (nfkd x).data.filter (fun c => c.toNat < 128) := hc
  exact of_decide_eq_true (List.mem_filter.mp h2).2

/-- C9. `sanitize_text` is idempotent: applying it twice gives the same
string as applying it once, for every input string. -/
theorem sanitize_text_idempotent (x : String) :
    sanitize_text (sanitize_text x) = sanitize_text x := by
  have hall : ∀ c ∈ (sanitize_text x).data, c.toNat < 128 := mem_sanitize_ascii x
  show asciiIgnore (nfkd (sanitize_text x)) = sanitize_text x
  unfold nfkd
  rw [bind_nfkdChar_of_ascii (sanitize_text x).data hall]
  show String.mk ((sanitize_text x).data.filter (fun c => c.toNat < 128)) = sanitize_text x
  rw [filter_ascii_of_ascii (sanitize_text x).data hall]

/-- C10. `sanitize_text` is the identity on ASCII-only input: every string
all of whose characters have code points below 128 — control characters such
as newline and tab included — is returned unchanged, since NFKD fixes ASCII
characters and the ASCII encode/decode round-trip drops none of them. -/
theorem sanitize_text_ascii_identity (x : String)
    (h : ∀ c ∈ x.data, c.toNat < 128) : sanitize_text x = x := by
  show asciiIgnore (nfkd x) = x
  unfold nfkd
  rw [bind_nfkdChar_of_ascii x.data h]
  show String.mk (x.data.filter (fun c => c.toNat < 128)) = x
  rw [filter_ascii_of_ascii x.data h]

/-- C10 (witness). The identity at a concrete ASCII string containing a
newline and a tab. -/
theorem sanitize_text_ascii_identity_witness :
    sanitize_text "line one\n\tline two" = "line one\n\tline two" :=
  sanitize_text_ascii_identity "line one\n\tline two" (by decide)

/- ### The date-range filter `get_hansard_by_date_range` -/

/-- Gregorian leap-year rule, as `datetime` applies it. -/
def isLeapYear (y : Nat) : Bool :=
  (y % 4 = 0 && y % 100 ≠ 0) || y % 400 = 0

/-- Number of days in month `m` of year `y`. -/
def daysInMonth (y m : Nat) : Nat :=
  if m = 2 then (if isLeapYear y then 29 else 28)
  else if m = 4 ∨ m = 6 ∨ m = 9 ∨ m = 11 then 30
  else 31

/-- Read exactly four decimal digits (the `%Y` field of `strptime`). -/
def parse4 : List Char → Option (Nat × List Char)
  | a :: b :: c :: d :: rest =>
    if a.isDigit && b.isDigit && c.isDigit && d.isDigit then
      some ((a.toNat - 48) * 1000 + (b.toNat - 48) * 100 + (c.toNat - 48) * 10 +
        (d.toNat - 48), rest)
    else none
  | _ => none

/-- Read one or two decimal digits, greedily (the `%m` / `%d` fields of
`strptime`). -/
def parse1or2 : List Char → Option (Nat × List Char)
  | [] => none
  | [a] => if a.isDigit then some (a.toNat - 48, []) else none
  | a :: b :: rest =>
    if a.isDigit then
      if b.isDigit then some ((a.toNat - 48) * 10 + (b.toNat - 48), rest)
      else some (a.toNat - 48, b :: rest)
    else none

/-- Model of `datetime.strptime(s, "%Y-%m-%d")`: a four-digit year, a
hyphen, a one-or-two-digit month, a hyphen, a one-or-two-digit day, end of
string; the month must be 1–12, the day must exist in that month, and the
year must be at least `datetime.MINYEAR` (1). `none` corresponds to the
`ValueError` that `strptime` (or the `datetime` constructor) raises. -/
def parseDate (s : String) : Option (Nat × Nat × Nat) :=
  match parse4 s.data with
  | none => none
  | some (y, rest1) =>
    match rest1 with
    | '-' :: rest2 =>
      match parse1or2 rest2 with
      | none => none
      | some (m, rest3) =>
        match rest3 with
        | '-' :: rest4 =>
          match parse1or2 rest4 with
          | none => none
          | some (d, rest5) =>
            if rest5 = [] ∧ 1 ≤ y ∧ 1 ≤ m ∧ m ≤ 12 ∧ 1 ≤ d ∧ d ≤ daysInMonth y m then
              some (y, m, d)
            else none
        | _ => none
    | _ => none

/-- Chronological order on parsed dates, as comparison of `datetime`
objects: lexicographic on (year, month, day). -/
def dateLE (a b : Nat × Nat × Nat) : Bool :=
  decide (a.1 < b.1 ∨ (a.1 = b.1 ∧ (a.2.1 < b.2.1 ∨ (a.2.1 = b.2.1 ∧ a.2.2 ≤ b.2.2))))

/-- The list comprehension inside `get_hansard_by_date_range`
(`speechGather.py` lines 380–383): keep, in order, the entries whose parsed
`hdate` lies between the bounds, where a missing `hdate` key takes the
default string `'1900-01-01'`. A present `hdate` value that `strptime`
cannot parse raises, aborting the whole comprehension: that is the `none`
result. -/
def filterRows (s e : Nat × Nat × Nat) : List Entry → Option (List Entry)
  | [] => some []
  | r :: rs =>
    match parseDate (r.hdate.getD "1900-01-01") with
    | none => none
    | some d =>
      match filterRows s e rs with
      | none => none
      | some tl => some (if dateLE s d && dateLE d e then r :: tl else tl)

/-- `get_hansard_by_date_range` (`speechGather.py` lines 356–389), with the
listing fetch's result passed in (`none` models `get_hansard` returning
`None`). The whole body sits in a `try` whose `except` returns `[]`: an
unparsable bound, a falsy listing result, or an unparsable `hdate` in any
row all produce the empty list. -/
def get_hansard_by_date_range (start_date end_date : String)
    (hansard_data : Option (List Entry)) : List Entry :=
  match parseDate start_date with
  | none => []
  | some s =>
    match parseDate end_date with
    | none => []
    | some e =>
      match hansard_data with
      | none => []
      | some rows =>
        if rows.isEmpty then []
        else (filterRows s e rows).getD []

/-- C6 (counterexample). The claim states that a record whose date fails to
parse is kept (treated as the earliest date) rather than causing the record
or the whole result to be dropped. Concretely: with bounds 1900-01-01 and
2100-01-01, a well-formed record dated 2000-06-15 — squarely inside the
bounds, so the claim requires it in the output — is fed in next to a record
whose `hdate` is the unparsable string `"not-a-date"`; the raised
`ValueError` reaches the enclosing `except` and the call returns the empty
list, dropping both records. -/
theorem unparsable_date_drops_all_cex :
    get_hansard_by_date_range "1900-01-01" "2100-01-01"
      (some [⟨some "g1", some "2000-06-15", none, none, none⟩,
             ⟨some "g2", some "not-a-date", none, none, none⟩]) = [] ∧
    parseDate "2000-06-15" = some (2000, 6, 15) ∧
    dateLE (1900, 1, 1) (2000, 6, 15) = true ∧
    dateLE (2000, 6, 15) (2100, 1, 1) = true := by
  refine ⟨?_, by decide, by decide, by decide⟩
  decide

theorem filterRows_eq_filter (s e : Nat × Nat × Nat) :
    ∀ rows : List Entry,
      (∀ r ∈ rows, (parseDate (r.hdate.getD "1900-01-01")).isSome) →
      filterRows s e rows = some (rows.filter (fun r =>
        match parseDate (r.hdate.getD "1900-01-01") with
        | some d => dateLE s d && dateLE d e
        | none => false)) := by
  intro rows
  induction rows with
  | nil => intro _; rfl
  | cons r rs ih =>
    intro h
    have hr : (parseDate (r.hdate.getD "1900-01-01")).isSome := h r (by simp)
    obtain ⟨d, hd⟩ := Option.isSome_iff_exists.mp hr
    have hrs : ∀ x ∈ rs, (parseDate (x.hdate.getD "1900-01-01")).isSome :=
      fun x hx => h x (by simp [hx])
    simp only [filterRows, hd, ih hrs, List.filter_cons]

/-- C6 (amended). When the two bounds parse and every row's date string —
with a missing `hdate` key defaulting to `'1900-01-01'` — parses,
`get_hansard_by_date_range` returns exactly the rows whose date `d`
satisfies `d1 ≤ d ≤ d2` with both bounds inclusive, preserving the input's
relative order; but a present `hdate` value that fails to parse makes the
entire call return the empty list (see the counterexample), rather than
keeping the record under a permissive default. -/
theorem date_range_inclusive_filter (s e : Nat × Nat × Nat) (sd ed : String)
    (rows : List Entry)
    (hs : parseDate sd = some s) (he : parseDate ed = some e)
    (hrows : ∀ r ∈ rows, (parseDate (r.hdate.getD "1900-01-01")).isSome) :
    get_hansard_by_date_range sd ed (some rows) =
      rows.filter (fun r =>
        match parseDate (r.hdate.getD "1900-01-01") with
        | some d => dateLE s d && dateLE d e
        | none => false) := by
  have hfr := filterRows_eq_filter s e rows hrows
  simp only [get_hansard_by_date_range, hs, he]
  cases rows with
  | nil => rfl
  | cons r rs =>
    simp only [List.isEmpty_cons, Bool.false_eq_true, if_false]
    rw [hfr]
    rfl

/-- C6 (witness). The inclusive filter at concrete data: bounds 2020-01-01
and 2020-12-31, three parseable rows — one inside the range, one on the
lower boundary (kept: bounds are inclusive), one outside — and one row with
a missing date (defaulted to 1900-01-01, outside this range). -/
theorem date_range_inclusive_filter_witness :
    get_hansard_by_date_range "2020-01-01" "2020-12-31"
      (some [⟨some "a", some "2020-06-15", none, none, none⟩,
             ⟨some "b", some "2020-01-01", none, none, none⟩,
             ⟨some "c", some "2021-03-04", none, none, none⟩,
             ⟨some "d", none, none, none, none⟩]) =
      [⟨some "a", some "2020-06-15", none, none, none⟩,
       ⟨some "b", some "2020-01-01", none, none, none⟩] := by
  rw [date_range_inclusive_filter (2020, 1, 1) (2020, 12, 31) "2020-01-01" "2020-12-31"
    _ (by decide) (by decide) (by decide)]
  decide

/- ### The listing client `get_hansard` -/

/-- A parsed JSON value, as `response.json()` produces it. -/
inductive Json where
  | null
  | bool (b : Bool)
  | num (n : Int)
  | str (s : String)
  | arr (elems : List Json)
  | obj (fields : List (String × Json))

/-- Python `data['key']` / `'key' in data` on a parsed JSON object (dict
keys are unique; the model looks up the first occurrence). -/
def lookupField (fields : List (String × Json)) (key : String) : Option Json :=
  match fields with
  | [] => none
  | (k, v) :: rest => if k = key then some v else lookupField rest key

/-- The envelope handling of `get_hansard` (`speechGather.py` lines
337–352), with `_make_call`'s result passed in: `none` models `None` (any
transport, API or JSON-parse error, and also a parsed object carrying an
`error` field). A dict with a `rows` key returns that key's value, a bare
list is returned as-is, and anything else returns `None` — the same value
the error paths produce. -/
def get_hansard (data : Option Json) : Option Json :=
  match data with
  | some (Json.obj fields) =>
    match lookupField fields "rows" with
    | some v => some v
    | none => none
  | some (Json.arr elems) => some (Json.arr elems)
  | _ => none

/-- C7 (counterexample). The claim states that a successfully parsed
response that is neither a `rows` object nor a bare array yields an empty
sequence of records. On the parsed JSON string `"x"` the source returns
`None` — the very value its error paths return — which is not the empty
sequence. -/
theorem get_hansard_other_shape_cex :
    get_hansard (some (Json.str "x")) = none ∧
    (none : Option Json) ≠ some (Json.arr []) := by
  exact ⟨rfl, fun h => Option.noConfusion h⟩

/-- C7 (amended). `get_hansard` unwraps a parsed JSON object carrying a
`rows` field to that field's value and passes a bare JSON array through
as-is; any other successfully parsed value (an object without `rows`, a
string, a number, a boolean or `null`) yields `None` — the same no-result
value its error paths produce, which callers must test for truthiness — not
an empty sequence. -/
theorem get_hansard_shape_cases (fields : List (String × Json))
    (elems : List Json) (v : Json) :
    (lookupField fields "rows" = some v →
      get_hansard (some (Json.obj fields)) = some v) ∧
    (lookupField fields "rows" = none →
      get_hansard (some (Json.obj fields)) = none) ∧
    (get_hansard (some (Json.arr elems)) = some (Json.arr elems)) ∧
    (∀ s : String, get_hansard (some (Json.str s)) = none) ∧
    (∀ n : Int, get_hansard (some (Json.num n)) = none) ∧
    (∀ b : Bool, get_hansard (some (Json.bool b)) = none) ∧
    (get_hansard (some Json.null) = none) ∧
    (get_hansard none = none) := by
  refine ⟨fun h => ?_, fun h => ?_, rfl, fun _ => rfl, fun _ => rfl, fun _ => rfl, rfl, rfl⟩
  · show (match lookupField fields "rows" with
      | some v => some v
      | none => none) = some v
    rw [h]
  · show (match lookupField fields "rows" with
      | some v => some v
      | none => none) = none
    rw [h]

/-- C7 (witness). The rows-unwrapping case of `get_hansard_shape_cases`
applied to the concrete object `{'rows': [], 'info': null}` and the
no-rows case applied to `{'info': null}`. -/
theorem get_hansard_shape_cases_witness :
    get_hansard (some (Json.obj [("rows", Json.arr []), ("info", Json.null)])) =
      some (Json.arr []) ∧
    get_hansard (some (Json.obj [("info", Json.null)])) = none :=
  ⟨(get_hansard_shape_cases [("rows", Json.arr []), ("info", Json.null)] [] (Json.arr [])).1
      rfl,
   (get_hansard_shape_cases [("info", Json.null)] [] Json.null).2.1 rfl⟩

end OpenAustralia
